import Mathlib

/-!
Verification of the FlagHub signed-URL caching gateway.

The repository contains several revisions of the gateway.  Each namespace
below is a shallow embedding of one revision, translated line by line from
its source file:

* namespace Worker      — src/backend/serverCloudwareWorker.ts (first
  document: the Cloudflare-KV worker with background refresh on cache hits
  and a bare SHA-256 digest signature).
* namespace WorkerCors  — src/unnamed/part_002 (first document: the
  Cloudflare-KV worker with OPTIONS/CORS handling, an HMAC-SHA1 signature
  over sorted parameters, and an origin verification request).
* namespace ExpressCoalesce — src/backend/serverCloudwareWorker.ts (third
  document: the Express server with the ongoingFetches coalescing map).

Modelling conventions:
* Cloudflare KV is an association list of (key, value, absolute expiry
  second); a put with expirationTtl stores expiry = now + ttl, and a get at
  time `now` returns the value only while now < expiry.
* crypto.subtle is an external primitive.  Its invocation is recorded as a
  `CryptoCall` value (which algorithm, which key, which data), and where a
  digest value is needed the hash itself is an abstract parameter
  `HashAlg → String → List Nat` (bytes); HMAC is likewise a parameter.
  Byte-to-hex conversion follows the source (toString(16).padStart(2,"0")).
* JavaScript string toUpperCase is modelled on its ASCII behaviour
  (Char.toUpper); the gateway only ever compares against [A-Z]{2}.
* parseInt is modelled as the decimal-digit fold; the worker only ever
  parses strings it previously produced with toString on a Nat.
* Network effects (the answer of the origin to the verification request) are an
  explicit `OriginResult` input.
-/

/-- Environment bindings of the worker: cloud name, API key, API secret. -/
structure Env where
  cloudName : String
  apiKey : String
  apiSecret : String
deriving DecidableEq

/-- Hash algorithms named in crypto.subtle calls of the source. -/
inductive HashAlg where
  | SHA1 : HashAlg
  | SHA256 : HashAlg
deriving DecidableEq

/-- A recorded invocation of the crypto.subtle API: either a bare digest of
some data, or an HMAC signature of some data under a key. -/
inductive CryptoCall where
  | digest : HashAlg → String → CryptoCall
  | hmacSign : HashAlg → String → String → CryptoCall
deriving DecidableEq

/-- JSON body of a gateway response: an error message or a secure URL. -/
inductive Body where
  | err : String → Body
  | ok : String → Body
deriving DecidableEq

/-- An HTTP response: status, headers, optional JSON body. -/
structure Resp where
  status : Nat
  headers : List (String × String)
  body : Option Body
deriving DecidableEq

/-- Cloudflare KV namespace: entries (key, value, absolute expiry second). -/
abbrev Store := List (String × String × Nat)

/-- KV get at time `now`: the first entry for the key, unless expired. -/
def kvGet (now : Nat) (st : Store) (k : String) : Option String :=
  match st.find? (fun e => e.1 == k) with
  | some (_, v, exp) => if now < exp then some v else none
  | none => none

/-- KV put with expirationTtl: overwrites the key, expiry = now + ttl. -/
def kvPut (now : Nat) (st : Store) (k v : String) (ttl : Nat) : Store :=
  (k, v, now + ttl) :: st.filter (fun e => e.1 != k)

/-- Model of JavaScript parseInt on the decimal numerals the worker stores
(the only strings it ever reads back as counters). -/
def parseIntD (s : String) : Nat :=
  s.data.foldl (fun n c => n * 10 + (c.toNat - 48)) 0

/-- Model of toUpperCase restricted to its ASCII behaviour, written as a
map over the character list. -/
def asciiUpper (s : String) : String :=
  ⟨s.data.map Char.toUpper⟩

/-- One hex digit, lowercase, as produced by toString(16). -/
def hexChar (n : Nat) : Char :=
  if n < 10 then Char.ofNat (48 + n) else Char.ofNat (87 + n)

/-- Model of b.toString(16).padStart(2, "0") for a byte. -/
def byteToHex (b : Nat) : String :=
  ⟨[hexChar (b / 16 % 16), hexChar (b % 16)]⟩

/-- Array.from(bytes).map(byteToHex).join(""). -/
def bytesToHex (bs : List Nat) : String :=
  String.join (bs.map byteToHex)

/-- Lexicographic comparison of character lists by code point, the order
used by the JavaScript default Array.prototype.sort comparator on the
ASCII parameter keys of this gateway. -/
def charListLe : List Char → List Char → Bool
  | [], _ => true
  | _ :: _, [] => false
  | a :: as, b :: bs =>
    if a.toNat < b.toNat then true
    else if b.toNat < a.toNat then false
    else charListLe as bs

/-- The string order used by Object.keys(params).sort(). -/
def strLe (a b : String) : Bool :=
  charListLe a.data b.data

/-- What the origin answers to the verification request: reachable with the
resource present (response.ok), reachable but the resource is absent
(!response.ok), or unreachable (fetch throws). -/
inductive OriginResult where
  | ok : OriginResult
  | notOk : OriginResult
  | netError : OriginResult
deriving DecidableEq

namespace Worker

/-- const TTL_SECONDS = 12 * 60 * 60. -/
def TTL_SECONDS : Nat := 12 * 60 * 60

/-- const RATE_LIMIT_MAX = 100. -/
def RATE_LIMIT_MAX : Nat := 100

/-- const RATE_LIMIT_WINDOW_SEC = 900. -/
def RATE_LIMIT_WINDOW_SEC : Nat := 900

/-- createJsonResponse of serverCloudwareWorker.ts (no CORS headers). -/
def createJsonResponse (data : Body) (statusCode : Nat) : Resp :=
  { status := statusCode
    headers := [("Content-Type", "application/json")]
    body := some data }

/-- The rate-limit counter key: RATE_LIMIT_KEY_PREFIX + ip + "_" + ua,
with "unknown" substituted for an absent header
(serverCloudwareWorker.ts, isRateLimited, lines 35-37). -/
def rateLimitKey (ip ua : Option String) : String :=
  "rl_" ++ ip.getD "unknown" ++ "_" ++ ua.getD "unknown"

/-- isRateLimited of serverCloudwareWorker.ts: read the counter from KV,
reject when it has reached RATE_LIMIT_MAX (without writing), otherwise
store count + 1 with a fresh RATE_LIMIT_WINDOW_SEC expiry and admit. -/
def isRateLimited (now : Nat) (ip ua : Option String) (st : Store) :
    Bool × Store :=
  let key := rateLimitKey ip ua
  let count := match kvGet now st key with
    | some s => parseIntD s
    | none => 0
  if RATE_LIMIT_MAX ≤ count then (true, st)
  else (false, kvPut now st key (toString (count + 1)) RATE_LIMIT_WINDOW_SEC)

/-- A run of isRateLimited calls for one client at the given times; returns
whether every call was admitted, and the final store. -/
def rlRun (ip ua : Option String) : List Nat → Store → Bool × Store
  | [], st => (true, st)
  | t :: ts, st =>
    let (limited, st₁) := isRateLimited t ip ua st
    let (allOk, st₂) := rlRun ip ua ts st₁
    (!limited && allOk, st₂)

/-- The times of a run all fall inside the live window left by the previous
request: each time is below the previous time plus RATE_LIMIT_WINDOW_SEC. -/
def windowChain (t₀ : Nat) : List Nat → Bool
  | [] => true
  | t :: ts => decide (t < t₀ + RATE_LIMIT_WINDOW_SEC) && windowChain t ts

/-- The regular expression test /^[A-Z]{2}$/. -/
def testAZ2 (s : String) : Bool :=
  s.length == 2 && s.data.all (fun c => 'A' ≤ c && c ≤ 'Z')

/-- validateQueryParams of serverCloudwareWorker.ts: uppercase the country
query parameter and require it to match /^[A-Z]{2}$/; returns the error
message, or none when valid.  A missing parameter and an empty string are
both rejected (the regex cannot match them). -/
def validateQueryParams (country : Option String) : Option String :=
  match country with
  | none =>
    some "Invalid country parameter. Must be a 2-letter uppercase country code."
  | some c =>
    if testAZ2 (asciiUpper c) then none
    else
      some "Invalid country parameter. Must be a 2-letter uppercase country code."

/-- fetchFromCloudinary of serverCloudwareWorker.ts (lines 63-94): builds
the signed URL and signs with crypto.subtle.digest("SHA-256",
"timestamp=" + expiresAt + secret), hex-encoded.  Returns the URL string
and the crypto.subtle invocation it performed.  `digest` is the abstract
hash primitive.  (This revision performs no network request here.) -/
def fetchFromCloudinary (now : Nat) (env : Env)
    (digest : HashAlg → String → List Nat) (country : String) :
    String × CryptoCall :=
  let filePath := "flags/" ++ country ++ ".svg"
  let expiresAt := now + TTL_SECONDS
  let stringToSign := "timestamp=" ++ toString expiresAt ++ env.apiSecret
  let signatureHex := bytesToHex (digest HashAlg.SHA256 stringToSign)
  let url := "https://res.cloudinary.com/" ++ env.cloudName ++
    "/image/upload/" ++ filePath ++ "?api_key=" ++ env.apiKey ++
    "&timestamp=" ++ toString expiresAt ++ "&signature=" ++ signatureHex
  (url, CryptoCall.digest HashAlg.SHA256 stringToSign)

/-- fetchAndCacheFlag of serverCloudwareWorker.ts (lines 97-119): resolve
the URL, return "" when it is empty, otherwise store it under flag_country
with the TTL and return it.  (In this revision fetchFromCloudinary is a
pure URL construction, so the catch branch is unreachable.) -/
def fetchAndCacheFlag (now : Nat) (env : Env)
    (digest : HashAlg → String → List Nat) (country : String) (st : Store) :
    String × Store :=
  let secureUrl := (fetchFromCloudinary now env digest country).1
  if secureUrl = "" then ("", st)
  else (secureUrl, kvPut now st ("flag_" ++ country) secureUrl TTL_SECONDS)

/-- handleGetFlag of serverCloudwareWorker.ts (lines 122-176), in source
order: rate limiting first, then validation, then the KV cache lookup.  On
a cache hit the response carries the cached URL and a fire-and-forget
background refresh re-invokes fetchAndCacheFlag and re-puts its result; the
returned store is the store after that background task has completed.  The
third component counts the fetchFromCloudinary invocations this request
causes (foreground or background). -/
def handleGetFlag (now : Nat) (env : Env)
    (digest : HashAlg → String → List Nat) (ip ua country : Option String)
    (st : Store) : Resp × Store × Nat :=
  let (limited, st₁) := isRateLimited now ip ua st
  if limited then
    (createJsonResponse (Body.err "Rate limit exceeded.") 429, st₁, 0)
  else
    match validateQueryParams country with
    | some msg => (createJsonResponse (Body.err msg) 400, st₁, 0)
    | none =>
      let c := asciiUpper (country.getD "")
      let cacheKey := "flag_" ++ c
      match kvGet now st₁ cacheKey with
      | some cachedUrl =>
        let (refreshedUrl, st₂) := fetchAndCacheFlag now env digest c st₁
        let st₃ :=
          if refreshedUrl = "" then st₂
          else kvPut now st₂ cacheKey refreshedUrl TTL_SECONDS
        (createJsonResponse (Body.ok cachedUrl) 200, st₃, 1)
      | none =>
        let (secureUrl, st₂) := fetchAndCacheFlag now env digest c st₁
        if secureUrl = "" then
          (createJsonResponse (Body.err "Cloudinary fetch error") 500, st₂, 1)
        else
          (createJsonResponse (Body.ok secureUrl) 200, st₂, 1)

end Worker

namespace WorkerCors

/-- const TTL_SECONDS = 12 * 60 * 60. -/
def TTL_SECONDS : Nat := 12 * 60 * 60

/-- const RATE_LIMIT_MAX = 100. -/
def RATE_LIMIT_MAX : Nat := 100

/-- const RATE_LIMIT_WINDOW_SEC = 900. -/
def RATE_LIMIT_WINDOW_SEC : Nat := 900

/-- The three cross-origin headers of src/unnamed/part_002. -/
def corsHeaders : List (String × String) :=
  [("Access-Control-Allow-Origin", "*"),
   ("Access-Control-Allow-Methods", "GET, OPTIONS"),
   ("Access-Control-Allow-Headers", "Content-Type")]

/-- createJsonResponse of src/unnamed/part_002 (lines 35-45): JSON body
with Content-Type and the three cross-origin headers. -/
def createJsonResponse (data : Body) (statusCode : Nat) : Resp :=
  { status := statusCode
    headers := ("Content-Type", "application/json") :: corsHeaders
    body := some data }

/-- getRateLimitKey of src/unnamed/part_002 (lines 47-51). -/
def getRateLimitKey (ip ua : Option String) : String :=
  "rl_" ++ ip.getD "unknown_ip" ++ "_" ++ ua.getD "unknown_ua"

/-- isRateLimited of src/unnamed/part_002 (lines 53-67). -/
def isRateLimited (now : Nat) (ip ua : Option String) (st : Store) :
    Bool × Store :=
  let key := getRateLimitKey ip ua
  let count := match kvGet now st key with
    | some s => parseIntD s
    | none => 0
  if RATE_LIMIT_MAX ≤ count then (true, st)
  else (false, kvPut now st key (toString (count + 1)) RATE_LIMIT_WINDOW_SEC)

/-- validateQueryParams of src/unnamed/part_002 (lines 69-75): same test
as the Worker revision. -/
def validateQueryParams (country : Option String) : Option String :=
  match country with
  | none =>
    some "Invalid country parameter. Must be a 2-letter uppercase country code."
  | some c =>
    if Worker.testAZ2 (asciiUpper c) then none
    else
      some "Invalid country parameter. Must be a 2-letter uppercase country code."

/-- generateCloudinarySignature of src/unnamed/part_002 (lines 77-106):
sort the parameter keys, join them as key=value pairs with ampersands,
and HMAC-SHA1 the result under the API secret, hex-encoded.  `hmacSha1` is
the abstract crypto.subtle HMAC primitive (key, data) → signature bytes.
The parameter map is an association list in object-insertion order with
pairwise distinct keys; params[key] is List.lookup (the getD "" default is
never reached for keys drawn from the list). -/
def generateCloudinarySignature (hmacSha1 : String → String → List Nat)
    (params : List (String × String)) (secret : String) : String :=
  let sortedKeys :=
    (params.map Prod.fst).insertionSort (fun a b => strLe a b = true)
  let queryString :=
    String.intercalate "&"
      (sortedKeys.map (fun k => k ++ "=" ++ ((params.lookup k).getD "")))
  bytesToHex (hmacSha1 secret queryString)

/-- fetchSignedCloudinaryUrl of src/unnamed/part_002 (lines 108-140):
build the parameter map, sign it, assemble the URL, then issue a
verification request to the origin; null when the origin reports the flag
absent, an exception when the origin is unreachable. -/
def fetchSignedCloudinaryUrl (now : Nat) (env : Env)
    (hmacSha1 : String → String → List Nat) (origin : OriginResult)
    (country : String) : Except String (Option String) :=
  let filePath := "flags/" ++ country ++ ".svg"
  let expiresAt := now + TTL_SECONDS
  let params := [("timestamp", toString expiresAt), ("public_id", filePath)]
  let signature := generateCloudinarySignature hmacSha1 params env.apiSecret
  let url := "https://res.cloudinary.com/" ++ env.cloudName ++
    "/image/upload/" ++ filePath ++ "?api_key=" ++ env.apiKey ++
    "&timestamp=" ++ toString expiresAt ++ "&signature=" ++ signature
  match origin with
  | OriginResult.netError => Except.error "fetch failed"
  | OriginResult.notOk => Except.ok none
  | OriginResult.ok => Except.ok (some url)

/-- fetchAndCacheFlag of src/unnamed/part_002 (lines 142-159): resolve the
signed URL; on null or an exception return "" without touching the store;
on success store it under flag_country with the TTL and return it. -/
def fetchAndCacheFlag (now : Nat) (env : Env)
    (hmacSha1 : String → String → List Nat) (origin : OriginResult)
    (country : String) (st : Store) : String × Store :=
  match fetchSignedCloudinaryUrl now env hmacSha1 origin country with
  | Except.error _ => ("", st)
  | Except.ok none => ("", st)
  | Except.ok (some u) =>
    if u = "" then ("", st)
    else (u, kvPut now st ("flag_" ++ country) u TTL_SECONDS)

/-- handleGetFlag of src/unnamed/part_002 (lines 161-201): rate limiting,
then validation, then the cache lookup (a hit responds directly, with no
background refresh in this revision), then the origin fetch; "" from the
fetcher becomes a 500 Cloudinary fetch error. -/
def handleGetFlag (now : Nat) (env : Env)
    (hmacSha1 : String → String → List Nat) (origin : OriginResult)
    (ip ua country : Option String) (st : Store) : Resp × Store :=
  let (limited, st₁) := isRateLimited now ip ua st
  if limited then
    (createJsonResponse (Body.err "Rate limit exceeded.") 429, st₁)
  else
    match validateQueryParams country with
    | some msg => (createJsonResponse (Body.err msg) 400, st₁)
    | none =>
      let c := asciiUpper (country.getD "")
      let cacheKey := "flag_" ++ c
      match kvGet now st₁ cacheKey with
      | some cachedUrl =>
        (createJsonResponse (Body.ok cachedUrl) 200, st₁)
      | none =>
        let (secureUrl, st₂) := fetchAndCacheFlag now env hmacSha1 origin c st₁
        if secureUrl = "" then
          (createJsonResponse (Body.err "Cloudinary fetch error") 500, st₂)
        else
          (createJsonResponse (Body.ok secureUrl) 200, st₂)

/-- The exported fetch handler of src/unnamed/part_002 (lines 13-33): an
OPTIONS request is answered 204 with the cross-origin headers and no body;
/api/getFlag is delegated to handleGetFlag; anything else is a 404. -/
def fetchEntry (method path : String) (now : Nat) (env : Env)
    (hmacSha1 : String → String → List Nat) (origin : OriginResult)
    (ip ua country : Option String) (st : Store) : Resp × Store :=
  if method = "OPTIONS" then
    ({ status := 204, headers := corsHeaders, body := none }, st)
  else if path = "/api/getFlag" then
    handleGetFlag now env hmacSha1 origin ip ua country st
  else
    (createJsonResponse (Body.err "Not Found") 404, st)

end WorkerCors

namespace ExpressCoalesce

/-- State of the Express revision of serverCloudwareWorker.ts (third
document): the LRU cache (key, url, expiresAt in ms) and the
ongoingFetches map.  Because the promise body it stores runs to completion
synchronously (it contains no await), every promise in the map is already
settled when it is inserted, so the values held in the map are the resolved URLs. -/
structure CState where
  cache : List (String × String × Nat)
  ongoing : List (String × String)
deriving DecidableEq

/-- cache.set of the LRU cache (overwrite semantics). -/
def cacheSet (c : List (String × String × Nat)) (k url : String)
    (expiresAt : Nat) : List (String × String × Nat) :=
  (k, url, expiresAt) :: c.filter (fun e => e.1 != k)

/-- Map.delete on ongoingFetches. -/
def mapDelete (m : List (String × String)) (k : String) :
    List (String × String) :=
  m.filter (fun e => e.1 != k)

/-- fetchAndCacheFlag of serverCloudwareWorker.ts (third document, lines
506-549), with `signUrl` the synchronous cloudinary.v2.url primitive.  The
execution order mirrors JavaScript semantics: an async function body runs
synchronously until its first await, and this body contains none, so the
entire try block and its finally clause (which deletes the cacheKey from
ongoingFetches) execute before the subsequent ongoingFetches.set line.
Returns the url delivered to the caller, the new state, and whether this
call actually executed the fetch operation (false when it joined an
existing registration). -/
def fetchAndCacheFlag (nowMs : Nat) (signUrl : String → Nat → String)
    (country cacheKey : String) (s : CState) : String × CState × Bool :=
  match s.ongoing.lookup cacheKey with
  | some existingFetch => (existingFetch, s, false)
  | none =>
    let signedUrl := signUrl country (nowMs / 1000 + 12 * 60 * 60)
    let cache₁ := cacheSet s.cache cacheKey signedUrl
      (nowMs + 12 * 60 * 60 * 1000)
    let ongoing₁ := mapDelete s.ongoing cacheKey
    let ongoing₂ := (cacheKey, signedUrl) :: ongoing₁
    (signedUrl, { cache := cache₁, ongoing := ongoing₂ }, true)

end ExpressCoalesce

/-! ## Helper lemmas -/

theorem kvGet_cons_self (now : Nat) (k v : String) (e : Nat) (rest : Store) :
    kvGet now ((k, v, e) :: rest) k = if now < e then some v else none := by
  simp [kvGet, List.find?]

theorem kvGet_cons_ne (now : Nat) (k' k v : String) (e : Nat) (rest : Store)
    (h : (k' == k) = false) :
    kvGet now ((k', v, e) :: rest) k = kvGet now rest k := by
  simp [kvGet, List.find?, h]

theorem filter_cons_self (k v : String) (e : Nat) (rest : Store) :
    ((k, v, e) :: rest).filter (fun x => x.1 != k) =
      rest.filter (fun x => x.1 != k) := by
  simp [List.filter]

theorem filter_key_idem (st : Store) (k : String) :
    (st.filter (fun x => x.1 != k)).filter (fun x => x.1 != k) =
      st.filter (fun x => x.1 != k) := by
  rw [List.filter_filter]
  exact List.filter_congr (fun a _ => Bool.and_self _)

theorem parse_toString {c : Nat} (h : c ≤ 100) : parseIntD (toString c) = c := by
  have key : ∀ d, d < 101 → parseIntD (toString d) = d := by decide
  exact key c (by omega)

theorem Worker.isRateLimited_live_below (t t₀ c : Nat) (ip ua : Option String)
    (base : Store) (hbase : base.filter
      (fun x => x.1 != Worker.rateLimitKey ip ua) = base)
    (hlive : t < t₀ + Worker.RATE_LIMIT_WINDOW_SEC) (hc : c < 100)
    (hc' : c ≤ 100) :
    Worker.isRateLimited t ip ua
      ((Worker.rateLimitKey ip ua, toString c,
        t₀ + Worker.RATE_LIMIT_WINDOW_SEC) :: base) =
    (false, (Worker.rateLimitKey ip ua, toString (c + 1),
      t + Worker.RATE_LIMIT_WINDOW_SEC) :: base) := by
  unfold Worker.isRateLimited
  simp only [kvGet_cons_self, if_pos hlive, parse_toString hc']
  rw [if_neg (by simp only [Worker.RATE_LIMIT_MAX]; omega)]
  unfold kvPut
  rw [filter_cons_self, hbase]

theorem Worker.rlRun_window_invariant (ip ua : Option String) (base : Store)
    (hbase : base.filter (fun x => x.1 != Worker.rateLimitKey ip ua) = base) :
    ∀ (ts : List Nat) (c t₀ : Nat), c + ts.length ≤ 100 →
      Worker.windowChain t₀ ts = true →
      Worker.rlRun ip ua ts
        ((Worker.rateLimitKey ip ua, toString c,
          t₀ + Worker.RATE_LIMIT_WINDOW_SEC) :: base) =
      (true, (Worker.rateLimitKey ip ua, toString (c + ts.length),
        ts.getLastD t₀ + Worker.RATE_LIMIT_WINDOW_SEC) :: base) := by
  intro ts
  induction ts with
  | nil =>
    intro c t₀ _ _
    simp [Worker.rlRun, List.getLastD]
  | cons t ts ih =>
    intro c t₀ hle hchain
    have hparts : t < t₀ + Worker.RATE_LIMIT_WINDOW_SEC ∧
        Worker.windowChain t ts = true := by
      simpa [Worker.windowChain] using hchain
    have hc : c < 100 := by
      have := hle
      simp [List.length_cons] at this
      omega
    unfold Worker.rlRun
    rw [Worker.isRateLimited_live_below t t₀ c ip ua base hbase hparts.1 hc
      (by omega)]
    dsimp only
    rw [ih (c + 1) t (by simp only [List.length_cons] at hle ⊢; omega)
      hparts.2]
    have harith : c + 1 + ts.length = c + (t :: ts).length := by
      simp only [List.length_cons]; omega
    rw [harith, List.getLastD_cons]
    simp

theorem Worker.isRateLimited_fresh (t : Nat) (ip ua : Option String)
    (st : Store)
    (hmiss : kvGet t st (Worker.rateLimitKey ip ua) = none) :
    Worker.isRateLimited t ip ua st =
      (false, (Worker.rateLimitKey ip ua, toString 1,
        t + Worker.RATE_LIMIT_WINDOW_SEC) ::
        st.filter (fun x => x.1 != Worker.rateLimitKey ip ua)) := by
  unfold Worker.isRateLimited
  simp only [hmiss]
  rw [if_neg (by simp [Worker.RATE_LIMIT_MAX])]
  rfl

theorem Worker.isRateLimited_at_max (t tL : Nat) (ip ua : Option String)
    (base : Store) (hlive : t < tL + Worker.RATE_LIMIT_WINDOW_SEC) :
    Worker.isRateLimited t ip ua
      ((Worker.rateLimitKey ip ua, toString 100,
        tL + Worker.RATE_LIMIT_WINDOW_SEC) :: base) =
    (true, (Worker.rateLimitKey ip ua, toString 100,
      tL + Worker.RATE_LIMIT_WINDOW_SEC) :: base) := by
  unfold Worker.isRateLimited
  simp only [kvGet_cons_self, if_pos hlive,
    parse_toString (Nat.le_refl 100)]
  rw [if_pos (by simp [Worker.RATE_LIMIT_MAX])]

theorem Worker.isRateLimited_expired (t tL : Nat) (ip ua : Option String)
    (v : String) (base : Store)
    (hbase : base.filter (fun x => x.1 != Worker.rateLimitKey ip ua) = base)
    (hexp : tL + Worker.RATE_LIMIT_WINDOW_SEC ≤ t) :
    Worker.isRateLimited t ip ua
      ((Worker.rateLimitKey ip ua, v,
        tL + Worker.RATE_LIMIT_WINDOW_SEC) :: base) =
    (false, (Worker.rateLimitKey ip ua, toString 1,
      t + Worker.RATE_LIMIT_WINDOW_SEC) :: base) := by
  unfold Worker.isRateLimited
  simp only [kvGet_cons_self, if_neg (by omega : ¬ t < tL +
    Worker.RATE_LIMIT_WINDOW_SEC)]
  rw [if_neg (by simp [Worker.RATE_LIMIT_MAX])]
  unfold kvPut
  rw [filter_cons_self, hbase]

/-! ## Claim theorems -/

/-- C1: the claim says the signature is computed with an HMAC keyed by the
secret, not a bare digest of the concatenated parameters followed by the
secret.  The code disagrees: for every time, environment, hash primitive
and country, the crypto.subtle invocation fetchFromCloudinary performs is
a bare SHA-256 digest of the string timestamp=(expiry)(secret) — exactly
the prohibited concatenation scheme, not an hmacSign call. -/
theorem Worker.C1_signature_is_bare_digest (now : Nat) (env : Env)
    (digest : HashAlg → String → List Nat) (country : String) :
    (Worker.fetchFromCloudinary now env digest country).2 =
      CryptoCall.digest HashAlg.SHA256
        ("timestamp=" ++ toString (now + Worker.TTL_SECONDS) ++
          env.apiSecret) := rfl

/-- C2: the claim says the pending-fetch registration is removed when the
fetch completes so a later call starts a fresh fetch.  The code disagrees:
the promise body contains no await, so it runs to completion — including
the finally clause that deletes the key — before ongoingFetches.set
registers the already-settled promise; the registration is therefore never
removed.  Concretely: after a first completed fetch for flag_US from an
empty state the registration is still present, and a much later second
call does not start a fresh fetch (its executed-flag is false) and is
answered with the URL of the first call. -/
theorem ExpressCoalesce.C2_registration_never_removed :
    (ExpressCoalesce.fetchAndCacheFlag 0
        (fun c t => "signed_" ++ c ++ "_" ++ toString t) "US" "flag_US"
        ⟨[], []⟩).2.1.ongoing = [("flag_US", "signed_US_43200")] ∧
    ExpressCoalesce.fetchAndCacheFlag 999999999
        (fun c t => "signed_" ++ c ++ "_" ++ toString t) "US" "flag_US"
        (ExpressCoalesce.fetchAndCacheFlag 0
          (fun c t => "signed_" ++ c ++ "_" ++ toString t) "US" "flag_US"
          ⟨[], []⟩).2.1 =
      ("signed_US_43200",
        (ExpressCoalesce.fetchAndCacheFlag 0
          (fun c t => "signed_" ++ c ++ "_" ++ toString t) "US" "flag_US"
          ⟨[], []⟩).2.1, false) := by
  refine ⟨?_, ?_⟩ <;> rfl

/-- C3 counterexample: the claim (quoting the fixed-window contract of the
spec) says a request arriving after the 15-minute window has elapsed is
admitted again with a fresh count of 1.  The code disagrees: isRateLimited
re-arms the 900-second KV expirationTtl on every admitted put, so the
counter expires 900 seconds after the last admitted request, not at the
fixed window boundary.  Concretely: 100 requests at times 0..99 fill the
counter and leave its entry live until t = 999; the fixed window that
began at t = 0 has elapsed at t = 900, yet a request at t = 950 is still
rejected — isRateLimited answers true with the store unchanged, and
handleGetFlag answers 429 — falsifying the reset conjunct as stated. -/
theorem Worker.C3_fixed_window_reset_fails :
    Worker.rlRun (some "203.0.113.7") (some "curl/8")
        (0 :: (List.range 99).map (· + 1)) [] =
      (true, [("rl_203.0.113.7_curl/8", "100", 999)]) ∧
    Worker.isRateLimited 950 (some "203.0.113.7") (some "curl/8")
        [("rl_203.0.113.7_curl/8", "100", 999)] =
      (true, [("rl_203.0.113.7_curl/8", "100", 999)]) ∧
    (∀ (env : Env) (digest : HashAlg → String → List Nat)
        (country : Option String),
      (Worker.handleGetFlag 950 env digest (some "203.0.113.7")
          (some "curl/8") country
          [("rl_203.0.113.7_curl/8", "100", 999)]).1 =
        Worker.createJsonResponse (Body.err "Rate limit exceeded.") 429) := by
  refine ⟨by decide, by decide, ?_⟩
  intro env digest country
  unfold Worker.handleGetFlag
  rw [(by decide : Worker.isRateLimited 950 (some "203.0.113.7")
      (some "curl/8") [("rl_203.0.113.7_curl/8", "100", 999)] =
      (true, [("rl_203.0.113.7_curl/8", "100", 999)]))]
  rfl

/-- C3 (amended): with the configured maximum of 100 requests per
900-second counter TTL, the first 100 requests of a client — each arriving
while the counter entry left by the previous request is still live — are
all admitted (final counter 100); the 101st request while the entry is
live is rejected, mapped to a 429 by handleGetFlag, without incrementing
the counter or re-arming its TTL; and because every admitted request
re-arms the TTL, the window slides: the counter expires 900 seconds after
the last admitted request (not at a fixed window boundary), and a request
arriving at or after that expiry is admitted again with a fresh count
of 1. -/
theorem Worker.C3_rate_limit_window (ip ua : Option String) (st₀ : Store)
    (t₁ : Nat) (ts : List Nat) (t₁₀₁ t' : Nat)
    (hmiss : kvGet t₁ st₀ (Worker.rateLimitKey ip ua) = none)
    (hlen : ts.length = 99)
    (hchain : Worker.windowChain t₁ ts = true)
    (h101 : t₁₀₁ < ts.getLastD t₁ + Worker.RATE_LIMIT_WINDOW_SEC)
    (hfresh : ts.getLastD t₁ + Worker.RATE_LIMIT_WINDOW_SEC ≤ t') :
    Worker.rlRun ip ua (t₁ :: ts) st₀ =
      (true, (Worker.rateLimitKey ip ua, toString 100,
        ts.getLastD t₁ + Worker.RATE_LIMIT_WINDOW_SEC) ::
        st₀.filter (fun x => x.1 != Worker.rateLimitKey ip ua)) ∧
    Worker.isRateLimited t₁₀₁ ip ua
      ((Worker.rateLimitKey ip ua, toString 100,
        ts.getLastD t₁ + Worker.RATE_LIMIT_WINDOW_SEC) ::
        st₀.filter (fun x => x.1 != Worker.rateLimitKey ip ua)) =
      (true, (Worker.rateLimitKey ip ua, toString 100,
        ts.getLastD t₁ + Worker.RATE_LIMIT_WINDOW_SEC) ::
        st₀.filter (fun x => x.1 != Worker.rateLimitKey ip ua)) ∧
    (∀ (env : Env) (digest : HashAlg → String → List Nat)
      (country : Option String),
      (Worker.handleGetFlag t₁₀₁ env digest ip ua country
        ((Worker.rateLimitKey ip ua, toString 100,
          ts.getLastD t₁ + Worker.RATE_LIMIT_WINDOW_SEC) ::
          st₀.filter (fun x => x.1 != Worker.rateLimitKey ip ua))).1 =
        Worker.createJsonResponse (Body.err "Rate limit exceeded.") 429) ∧
    Worker.isRateLimited t' ip ua
      ((Worker.rateLimitKey ip ua, toString 100,
        ts.getLastD t₁ + Worker.RATE_LIMIT_WINDOW_SEC) ::
        st₀.filter (fun x => x.1 != Worker.rateLimitKey ip ua)) =
      (false, (Worker.rateLimitKey ip ua, toString 1,
        t' + Worker.RATE_LIMIT_WINDOW_SEC) ::
        st₀.filter (fun x => x.1 != Worker.rateLimitKey ip ua)) := by
  have hbase : (st₀.filter (fun x => x.1 != Worker.rateLimitKey ip ua)).filter
      (fun x => x.1 != Worker.rateLimitKey ip ua) =
      st₀.filter (fun x => x.1 != Worker.rateLimitKey ip ua) :=
    filter_key_idem st₀ _
  have hrun : Worker.rlRun ip ua (t₁ :: ts) st₀ =
      (true, (Worker.rateLimitKey ip ua, toString 100,
        ts.getLastD t₁ + Worker.RATE_LIMIT_WINDOW_SEC) ::
        st₀.filter (fun x => x.1 != Worker.rateLimitKey ip ua)) := by
    unfold Worker.rlRun
    rw [Worker.isRateLimited_fresh t₁ ip ua st₀ hmiss]
    dsimp only
    rw [Worker.rlRun_window_invariant ip ua
      (st₀.filter (fun x => x.1 != Worker.rateLimitKey ip ua)) hbase
      ts 1 t₁ (by omega) hchain]
    rw [hlen]
    simp
  refine ⟨hrun, Worker.isRateLimited_at_max t₁₀₁ _ ip ua _ h101, ?_, ?_⟩
  · intro env digest country
    unfold Worker.handleGetFlag
    rw [Worker.isRateLimited_at_max t₁₀₁ _ ip ua _ h101]
    simp
  · exact Worker.isRateLimited_expired t' _ ip ua _ _ hbase hfresh

/-- Witness for C3 at a concrete client and concrete times 0,1,…,99 inside
one window, the 101st request at time 100, and a fresh request at time
999 (the window left by the 100th request at time 99 ends there). -/
theorem Worker.C3_rate_limit_window_witness :
    Worker.windowChain 0 ((List.range 99).map (· + 1)) = true ∧
    Worker.isRateLimited 100 (some "203.0.113.7") (some "curl/8")
      [("rl_203.0.113.7_curl/8", "100", 999)] =
      (true, [("rl_203.0.113.7_curl/8", "100", 999)]) ∧
    Worker.isRateLimited 999 (some "203.0.113.7") (some "curl/8")
      [("rl_203.0.113.7_curl/8", "100", 999)] =
      (false, [("rl_203.0.113.7_curl/8", "1", 1899)]) := by
  refine ⟨by decide, ?_, ?_⟩
  · exact (Worker.C3_rate_limit_window (some "203.0.113.7") (some "curl/8")
      [] 0 ((List.range 99).map (· + 1)) 100 999 rfl (by decide) (by decide)
      (by decide) (by decide)).2.1
  · exact (Worker.C3_rate_limit_window (some "203.0.113.7") (some "curl/8")
      [] 0 ((List.range 99).map (· + 1)) 100 999 rfl (by decide) (by decide)
      (by decide) (by decide)).2.2.2

/-- C4 counterexample: the claim says a request with a malformed key is
never answered with the rate-limit outcome, even when the counter of the client
is at the maximum.  In the code the rate limiter runs first: with the
counter at 100 inside a live window, a request whose country parameter is
the malformed "ZZZ" is answered 429, not 400. -/
theorem Worker.C4_malformed_request_gets_429 :
    (Worker.handleGetFlag 0 ⟨"demo", "key123", "sekrit"⟩ (fun _ _ => [0])
      (some "9.9.9.9") (some "curl/8") (some "ZZZ")
      [("rl_9.9.9.9_curl/8", "100", 900)]).1 =
      Worker.createJsonResponse (Body.err "Rate limit exceeded.") 429 := by
  decide

/-- C4 (amended): the Router consults the Rate Limiter before validating
the country parameter.  An admitted request with a missing or malformed
key terminates with the validation-failure response (400) and reaches no
further states (no cache access beyond the rate-limit increment, no origin
fetch); but a request that finds the counter at the maximum is answered
with the rate-limit outcome (429) regardless of the parameter. -/
theorem Worker.C4_rate_check_precedes_validation (now : Nat) (env : Env)
    (digest : HashAlg → String → List Nat) (ip ua country : Option String)
    (msg : String) :
    (∀ st st₁, Worker.isRateLimited now ip ua st = (false, st₁) →
      Worker.validateQueryParams country = some msg →
      Worker.handleGetFlag now env digest ip ua country st =
        (Worker.createJsonResponse (Body.err msg) 400, st₁, 0)) ∧
    (∀ st, Worker.isRateLimited now ip ua st = (true, st) →
      Worker.handleGetFlag now env digest ip ua country st =
        (Worker.createJsonResponse (Body.err "Rate limit exceeded.") 429,
          st, 0)) := by
  constructor
  · intro st st₁ hallow hinvalid
    unfold Worker.handleGetFlag
    rw [hallow]
    dsimp only
    rw [hinvalid]
    simp
  · intro st hmax
    unfold Worker.handleGetFlag
    rw [hmax]
    rfl

/-- Witness for C4 (amended) at a concrete admitted malformed request and
a concrete at-maximum client. -/
theorem Worker.C4_rate_check_precedes_validation_witness :
    Worker.isRateLimited 0 (some "9.9.9.9") (some "curl/8") [] =
      (false, [("rl_9.9.9.9_curl/8", "1", 900)]) ∧
    Worker.validateQueryParams (some "ZZZ") = some
      "Invalid country parameter. Must be a 2-letter uppercase country code." ∧
    Worker.handleGetFlag 0 ⟨"demo", "key123", "sekrit"⟩ (fun _ _ => [0])
      (some "9.9.9.9") (some "curl/8") (some "ZZZ") [] =
      (Worker.createJsonResponse (Body.err
        "Invalid country parameter. Must be a 2-letter uppercase country code.")
        400, [("rl_9.9.9.9_curl/8", "1", 900)], 0) :=
  ⟨by decide, by decide,
    (Worker.C4_rate_check_precedes_validation 0 ⟨"demo", "key123", "sekrit"⟩
      (fun _ _ => [0]) (some "9.9.9.9") (some "curl/8") (some "ZZZ") _).1
      [] [("rl_9.9.9.9_curl/8", "1", 900)] (by decide) (by decide)⟩

/-- C5 counterexample: the claim says a second request immediately after a
successful resolution returns the identical cached URL and does not cause
a second origin fetch.  The code does return the identical cached URL, but
the cache-hit branch fires a background refresh that invokes the origin
fetcher again: on a concrete miss-then-hit run, the origin-fetch count
of the second request is 1, not 0. -/
theorem Worker.C5_cache_hit_triggers_second_fetch :
    (Worker.handleGetFlag 0 ⟨"demo", "key123", "sekrit"⟩
      (fun _ _ => [171, 205]) (some "1.1.1.1") (some "m") (some "us")
      []).1 = Worker.createJsonResponse (Body.ok
        "https://res.cloudinary.com/demo/image/upload/flags/US.svg?api_key=key123&timestamp=43200&signature=abcd")
        200 ∧
    (Worker.handleGetFlag 0 ⟨"demo", "key123", "sekrit"⟩
      (fun _ _ => [171, 205]) (some "1.1.1.1") (some "m") (some "us")
      (Worker.handleGetFlag 0 ⟨"demo", "key123", "sekrit"⟩
        (fun _ _ => [171, 205]) (some "1.1.1.1") (some "m") (some "us")
        []).2.1).1 = Worker.createJsonResponse (Body.ok
        "https://res.cloudinary.com/demo/image/upload/flags/US.svg?api_key=key123&timestamp=43200&signature=abcd")
        200 ∧
    (Worker.handleGetFlag 0 ⟨"demo", "key123", "sekrit"⟩
      (fun _ _ => [171, 205]) (some "1.1.1.1") (some "m") (some "us")
      (Worker.handleGetFlag 0 ⟨"demo", "key123", "sekrit"⟩
        (fun _ _ => [171, 205]) (some "1.1.1.1") (some "m") (some "us")
        []).2.1).2.2 = 1 := by
  refine ⟨?_, ?_, ?_⟩ <;> decide

/-- C5 (amended): for every admitted request whose valid key hits the
cache, the response carries exactly the cached URL string (identical to
what the earlier successful resolution stored), and the hit additionally
triggers exactly one background origin-fetch invocation that refreshes the
entry; the response itself is not affected by that refresh. -/
theorem Worker.C5_cache_hit_identical_url_with_refresh (now : Nat)
    (env : Env) (digest : HashAlg → String → List Nat)
    (ip ua country : Option String) (st st₁ : Store) (u : String)
    (hallow : Worker.isRateLimited now ip ua st = (false, st₁))
    (hvalid : Worker.validateQueryParams country = none)
    (hhit : kvGet now st₁ ("flag_" ++ asciiUpper (country.getD "")) =
      some u) :
    (Worker.handleGetFlag now env digest ip ua country st).1 =
      Worker.createJsonResponse (Body.ok u) 200 ∧
    (Worker.handleGetFlag now env digest ip ua country st).2.2 = 1 := by
  unfold Worker.handleGetFlag
  rw [hallow]
  dsimp only
  rw [hvalid]
  dsimp only
  rw [hhit]
  exact ⟨rfl, rfl⟩

/-- Witness for C5 (amended) at a concrete cached entry. -/
theorem Worker.C5_cache_hit_identical_url_with_refresh_witness :
    Worker.isRateLimited 5 (some "1.1.1.1") (some "m")
      [("flag_US", "cachedURL", 100)] =
      (false, [("rl_1.1.1.1_m", "1", 905), ("flag_US", "cachedURL", 100)]) ∧
    Worker.validateQueryParams (some "us") = none ∧
    kvGet 5 [("rl_1.1.1.1_m", "1", 905), ("flag_US", "cachedURL", 100)]
      ("flag_" ++ asciiUpper ((some "us" : Option String).getD "")) =
      some "cachedURL" ∧
    ((Worker.handleGetFlag 5 ⟨"demo", "key123", "sekrit"⟩
      (fun _ _ => [171, 205]) (some "1.1.1.1") (some "m") (some "us")
      [("flag_US", "cachedURL", 100)]).1 =
      Worker.createJsonResponse (Body.ok "cachedURL") 200 ∧
    (Worker.handleGetFlag 5 ⟨"demo", "key123", "sekrit"⟩
      (fun _ _ => [171, 205]) (some "1.1.1.1") (some "m") (some "us")
      [("flag_US", "cachedURL", 100)]).2.2 = 1) :=
  ⟨by decide, by decide, by decide,
    Worker.C5_cache_hit_identical_url_with_refresh 5
      ⟨"demo", "key123", "sekrit"⟩ (fun _ _ => [171, 205]) (some "1.1.1.1")
      (some "m") (some "us") [("flag_US", "cachedURL", 100)]
      [("rl_1.1.1.1_m", "1", 905), ("flag_US", "cachedURL", 100)] "cachedURL"
      (by decide) (by decide) (by decide)⟩

/-- C6 counterexample: the claim says the Origin Fetcher propagates a
typed failure — never a bare empty result — so the Router can map
not-found to a client error and unavailable to a server error, retrying
only the latter.  In the code fetchAndCacheFlag returns the bare empty
string for a failure, and the Router answers the same 500 "Cloudinary
fetch error" response for an origin-not-found as for an unreachable
origin, with no retry. -/
theorem WorkerCors.C6_failure_yields_bare_empty_and_500 :
    WorkerCors.fetchAndCacheFlag 0 ⟨"demo", "key123", "sekrit"⟩
      (fun _ _ => [1]) OriginResult.notOk "US" [] = ("", []) ∧
    (WorkerCors.handleGetFlag 0 ⟨"demo", "key123", "sekrit"⟩
      (fun _ _ => [1]) OriginResult.notOk (some "1.1.1.1") (some "m")
      (some "US") []).1 =
      WorkerCors.createJsonResponse (Body.err "Cloudinary fetch error")
        500 ∧
    (WorkerCors.handleGetFlag 0 ⟨"demo", "key123", "sekrit"⟩
      (fun _ _ => [1]) OriginResult.netError (some "1.1.1.1") (some "m")
      (some "US") []).1 =
      WorkerCors.createJsonResponse (Body.err "Cloudinary fetch error")
        500 := by
  refine ⟨?_, ?_, ?_⟩ <;> decide

/-- C6 (amended): when origin resolution fails — whether the origin
reports the flag absent or is unreachable — the Origin Fetcher returns the
bare empty string rather than a typed failure, leaves the store untouched,
and the Router maps every admitted, valid, cache-missing request with a
failing origin to the one 500 response "Cloudinary fetch error"; the
not-found and unavailable classes are not distinguished and no retry is
performed. -/
theorem WorkerCors.C6_failure_empty_result_uniform_500 (now : Nat)
    (env : Env) (hmacSha1 : String → String → List Nat)
    (origin : OriginResult) (ip ua country : Option String)
    (st st₁ : Store)
    (hfail : origin ≠ OriginResult.ok)
    (hallow : WorkerCors.isRateLimited now ip ua st = (false, st₁))
    (hvalid : WorkerCors.validateQueryParams country = none)
    (hmiss : kvGet now st₁ ("flag_" ++ asciiUpper (country.getD "")) =
      none) :
    WorkerCors.fetchAndCacheFlag now env hmacSha1 origin
      (asciiUpper (country.getD "")) st₁ = ("", st₁) ∧
    WorkerCors.handleGetFlag now env hmacSha1 origin ip ua country st =
      (WorkerCors.createJsonResponse (Body.err "Cloudinary fetch error")
        500, st₁) := by
  have hfc : WorkerCors.fetchAndCacheFlag now env hmacSha1 origin
      (asciiUpper (country.getD "")) st₁ = ("", st₁) := by
    cases origin with
    | ok => exact absurd rfl hfail
    | notOk => rfl
    | netError => rfl
  refine ⟨hfc, ?_⟩
  unfold WorkerCors.handleGetFlag
  rw [hallow]
  dsimp only
  rw [hvalid]
  dsimp only
  rw [hmiss]
  dsimp only
  rw [hfc]
  rfl

/-- Witness for C6 (amended) at a concrete not-found origin answer. -/
theorem WorkerCors.C6_failure_empty_result_uniform_500_witness :
    (OriginResult.notOk ≠ OriginResult.ok) ∧
    WorkerCors.isRateLimited 0 (some "8.8.8.8") (some "m") [] =
      (false, [("rl_8.8.8.8_m", "1", 900)]) ∧
    WorkerCors.validateQueryParams (some "DE") = none ∧
    kvGet 0 [("rl_8.8.8.8_m", "1", 900)]
      ("flag_" ++ asciiUpper ((some "DE" : Option String).getD "")) =
      none ∧
    WorkerCors.handleGetFlag 0 ⟨"demo", "key123", "sekrit"⟩
      (fun _ _ => [1]) OriginResult.notOk (some "8.8.8.8") (some "m")
      (some "DE") [] =
      (WorkerCors.createJsonResponse (Body.err "Cloudinary fetch error")
        500, [("rl_8.8.8.8_m", "1", 900)]) :=
  ⟨by decide, by decide, by decide, by decide,
    (WorkerCors.C6_failure_empty_result_uniform_500 0
      ⟨"demo", "key123", "sekrit"⟩ (fun _ _ => [1]) OriginResult.notOk
      (some "8.8.8.8") (some "m") (some "DE") []
      [("rl_8.8.8.8_m", "1", 900)] (by decide) (by decide) (by decide)
      (by decide)).2⟩

/-- C7: a failed resolution leaves the Cache Store unchanged — the fetcher
returns ("", st) with the very store it was given — so a subsequent read
of the flag key observes the same cache outcome (a miss stays a miss)
rather than a cached failure. -/
theorem WorkerCors.C7_failed_fetch_leaves_cache_unchanged (now : Nat)
    (env : Env) (hmacSha1 : String → String → List Nat)
    (origin : OriginResult) (country : String) (st : Store)
    (hfail : origin ≠ OriginResult.ok) :
    WorkerCors.fetchAndCacheFlag now env hmacSha1 origin country st =
      ("", st) ∧
    (∀ (t : Nat) (k : String),
      kvGet t (WorkerCors.fetchAndCacheFlag now env hmacSha1 origin
        country st).2 k = kvGet t st k) := by
  have hfc : WorkerCors.fetchAndCacheFlag now env hmacSha1 origin country
      st = ("", st) := by
    cases origin with
    | ok => exact absurd rfl hfail
    | notOk => rfl
    | netError => rfl
  exact ⟨hfc, fun t k => by rw [hfc]⟩

/-- Witness for C7 at a concrete unreachable origin. -/
theorem WorkerCors.C7_failed_fetch_leaves_cache_unchanged_witness :
    (OriginResult.netError ≠ OriginResult.ok) ∧
    WorkerCors.fetchAndCacheFlag 7 ⟨"demo", "key123", "sekrit"⟩
      (fun _ _ => [1]) OriginResult.netError "FR"
      [("flag_DE", "someURL", 50)] =
      ("", [("flag_DE", "someURL", 50)]) :=
  ⟨by decide,
    (WorkerCors.C7_failed_fetch_leaves_cache_unchanged 7
      ⟨"demo", "key123", "sekrit"⟩ (fun _ _ => [1]) OriginResult.netError
      "FR" [("flag_DE", "someURL", 50)] (by decide)).1⟩

theorem charListLe_cons (a b : Char) (as bs : List Char) :
    charListLe (a :: as) (b :: bs) =
      if a.toNat < b.toNat then true
      else if b.toNat < a.toNat then false
      else charListLe as bs := rfl

theorem charListLe_cons_iff (a b : Char) (as bs : List Char) :
    charListLe (a :: as) (b :: bs) = true ↔
      a.toNat < b.toNat ∨
        (a.toNat = b.toNat ∧ charListLe as bs = true) := by
  rw [charListLe_cons]
  split_ifs with h1 h2
  · simp [h1]
  · simp only [Bool.false_eq_true, false_iff]
    rintro (hcontra | ⟨hcontra, _⟩) <;> omega
  · have heq : a.toNat = b.toNat := by omega
    constructor
    · intro hr; exact Or.inr ⟨heq, hr⟩
    · rintro (hcontra | ⟨_, hr⟩)
      · omega
      · exact hr

theorem charListLe_total : ∀ as bs : List Char,
    charListLe as bs = true ∨ charListLe bs as = true := by
  intro as
  induction as with
  | nil => intro bs; left; rfl
  | cons a as ih =>
    intro bs
    cases bs with
    | nil => right; rfl
    | cons b bs =>
      rcases Nat.lt_trichotomy a.toNat b.toNat with h | h | h
      · left; rw [charListLe_cons_iff]; exact Or.inl h
      · rcases ih bs with hr | hr
        · left; rw [charListLe_cons_iff]; exact Or.inr ⟨h, hr⟩
        · right; rw [charListLe_cons_iff]; exact Or.inr ⟨h.symm, hr⟩
      · right; rw [charListLe_cons_iff]; exact Or.inl h

theorem charListLe_trans : ∀ as bs cs : List Char,
    charListLe as bs = true → charListLe bs cs = true →
    charListLe as cs = true := by
  intro as
  induction as with
  | nil => intro bs cs _ _; rfl
  | cons a as ih =>
    intro bs cs h1 h2
    cases bs with
    | nil => exact absurd h1 (by simp [charListLe])
    | cons b bs =>
      cases cs with
      | nil => exact absurd h2 (by simp [charListLe])
      | cons c cs =>
        rw [charListLe_cons_iff] at h1 h2 ⊢
        rcases h1 with h1 | ⟨h1e, h1r⟩
        · rcases h2 with h2 | ⟨h2e, _⟩
          · exact Or.inl (by omega)
          · exact Or.inl (by omega)
        · rcases h2 with h2 | ⟨h2e, h2r⟩
          · exact Or.inl (by omega)
          · exact Or.inr ⟨by omega, ih bs cs h1r h2r⟩

theorem char_toNat_inj {a b : Char} (h : a.toNat = b.toNat) : a = b :=
  Char.ext (UInt32.toNat.inj h)

theorem charListLe_antisymm : ∀ as bs : List Char,
    charListLe as bs = true → charListLe bs as = true → as = bs := by
  intro as
  induction as with
  | nil =>
    intro bs h1 h2
    cases bs with
    | nil => rfl
    | cons b bs => exact absurd h2 (by simp [charListLe])
  | cons a as ih =>
    intro bs h1 h2
    cases bs with
    | nil => exact absurd h1 (by simp [charListLe])
    | cons b bs =>
      rw [charListLe_cons_iff] at h1 h2
      rcases h1 with h1 | ⟨h1e, h1r⟩
      · rcases h2 with h2 | ⟨h2e, _⟩
        · omega
        · omega
      · rcases h2 with h2 | ⟨h2e, h2r⟩
        · omega
        · rw [char_toNat_inj h1e, ih bs h1r h2r]

theorem string_data_inj {a b : String} (h : a.data = b.data) : a = b := by
  cases a; cases b; exact congrArg String.mk h

theorem strLe_antisymm {a b : String} (h1 : strLe a b = true)
    (h2 : strLe b a = true) : a = b :=
  string_data_inj (charListLe_antisymm a.data b.data h1 h2)

theorem lookup_eq_of_perm {l₁ l₂ : List (String × String)}
    (h : l₁.Perm l₂) (k : String) :
    (l₁.map Prod.fst).Nodup → l₁.lookup k = l₂.lookup k := by
  induction h with
  | nil => intro _; rfl
  | cons x h ih =>
    intro hnd
    obtain ⟨xk, xv⟩ := x
    have hnd2 := hnd
    simp only [List.map_cons] at hnd2
    have hnd' := (List.nodup_cons.mp hnd2).2
    cases hkx : k == xk with
    | true => simp [List.lookup, hkx]
    | false => simp [List.lookup, hkx, ih hnd']
  | swap x y l =>
    intro hnd
    obtain ⟨xk, xv⟩ := x
    obtain ⟨yk, yv⟩ := y
    have hnd2 := hnd
    simp only [List.map_cons] at hnd2
    have hyk := (List.nodup_cons.mp hnd2).1
    have hne : yk ≠ xk := fun hcontra =>
      hyk (by rw [hcontra]; exact List.mem_cons_self _ _)
    cases hky : k == yk with
    | true =>
      have hk : k = yk := by simpa using hky
      have hkx : (k == xk) = false := by
        rw [hk]; exact beq_eq_false_iff_ne.mpr hne
      simp [List.lookup, hky, hkx]
    | false =>
      cases hkx : k == xk with
      | true => simp [List.lookup, hky, hkx]
      | false => simp [List.lookup, hky, hkx]
  | trans h₁ h₂ ih₁ ih₂ =>
    intro hnd
    exact (ih₁ hnd).trans (ih₂ ((h₁.map Prod.fst).nodup hnd))

/-- C8: the generated signature depends only on the set of key-value
pairs and the secret, not on the insertion order of the map: the keys are
sorted before concatenation as key=value pairs joined by ampersands, so
every permutation of a parameter map (non-empty, pairwise-distinct keys)
with a non-empty secret yields the identical signature string, for every
HMAC primitive. -/
theorem WorkerCors.C8_signature_permutation_invariant
    (hmacSha1 : String → String → List Nat)
    (params₁ params₂ : List (String × String)) (secret : String)
    (hne : params₁ ≠ []) (hsec : secret ≠ "")
    (hnd : (params₁.map Prod.fst).Nodup) (hperm : params₁.Perm params₂) :
    WorkerCors.generateCloudinarySignature hmacSha1 params₁ secret =
      WorkerCors.generateCloudinarySignature hmacSha1 params₂ secret := by
  haveI htot : IsTotal String (fun a b => strLe a b = true) :=
    ⟨fun a b => charListLe_total a.data b.data⟩
  haveI htr : IsTrans String (fun a b => strLe a b = true) :=
    ⟨fun a b c => charListLe_trans a.data b.data c.data⟩
  haveI hasym : IsAntisymm String (fun a b => strLe a b = true) :=
    ⟨fun a b => strLe_antisymm⟩
  unfold WorkerCors.generateCloudinarySignature
  dsimp only
  have hkeys :
      (params₁.map Prod.fst).insertionSort (fun a b => strLe a b = true) =
      (params₂.map Prod.fst).insertionSort (fun a b => strLe a b = true) :=
    List.eq_of_perm_of_sorted
      ((List.perm_insertionSort _ _).trans ((hperm.map Prod.fst).trans
        (List.perm_insertionSort _ _).symm))
      (List.sorted_insertionSort _ _) (List.sorted_insertionSort _ _)
  rw [hkeys]
  apply congrArg
  apply congrArg
  apply congrArg
  exact List.map_congr_left
    (fun k _ => by rw [lookup_eq_of_perm hperm k hnd])

/-- Witness for C8 on the concrete two-parameter map of the worker, its
swap permutation, and a concrete HMAC primitive. -/
theorem WorkerCors.C8_signature_permutation_invariant_witness :
    ([("timestamp", "43200"), ("public_id", "flags/US.svg")] :
      List (String × String)) ≠ [] ∧
    ("sekrit" : String) ≠ "" ∧
    (([("timestamp", "43200"), ("public_id", "flags/US.svg")] :
      List (String × String)).map Prod.fst).Nodup ∧
    ([("timestamp", "43200"), ("public_id", "flags/US.svg")] :
      List (String × String)).Perm
      [("public_id", "flags/US.svg"), ("timestamp", "43200")] ∧
    WorkerCors.generateCloudinarySignature (fun _ _ => [7])
      [("timestamp", "43200"), ("public_id", "flags/US.svg")] "sekrit" =
    WorkerCors.generateCloudinarySignature (fun _ _ => [7])
      [("public_id", "flags/US.svg"), ("timestamp", "43200")] "sekrit" :=
  ⟨by simp, by simp, by simp, List.Perm.swap _ _ _,
    WorkerCors.C8_signature_permutation_invariant (fun _ _ => [7]) _ _
      "sekrit" (by simp) (by simp) (by simp) (List.Perm.swap _ _ _)⟩

theorem WorkerCors.handleGetFlag_headers (now : Nat) (env : Env)
    (hmacSha1 : String → String → List Nat) (origin : OriginResult)
    (ip ua country : Option String) (st : Store) :
    (WorkerCors.handleGetFlag now env hmacSha1 origin ip ua country
      st).1.headers =
      ("Content-Type", "application/json") :: WorkerCors.corsHeaders := by
  unfold WorkerCors.handleGetFlag
  dsimp only
  repeat' split
  all_goals rfl

/-- C9: an OPTIONS request receives status 204 with the permissive
cross-origin headers, and every other response the gateway produces —
success, validation failure, rate-limit rejection, server error, and
unknown-route 404 — carries those same three cross-origin headers. -/
theorem WorkerCors.C9_cors_headers_on_all_responses (method path : String)
    (now : Nat) (env : Env) (hmacSha1 : String → String → List Nat)
    (origin : OriginResult) (ip ua country : Option String) (st : Store) :
    WorkerCors.fetchEntry "OPTIONS" path now env hmacSha1 origin ip ua
      country st =
      ({ status := 204, headers := WorkerCors.corsHeaders, body := none },
        st) ∧
    ("Access-Control-Allow-Origin", "*") ∈
      (WorkerCors.fetchEntry method path now env hmacSha1 origin ip ua
        country st).1.headers ∧
    ("Access-Control-Allow-Methods", "GET, OPTIONS") ∈
      (WorkerCors.fetchEntry method path now env hmacSha1 origin ip ua
        country st).1.headers ∧
    ("Access-Control-Allow-Headers", "Content-Type") ∈
      (WorkerCors.fetchEntry method path now env hmacSha1 origin ip ua
        country st).1.headers := by
  have hh : (WorkerCors.fetchEntry method path now env hmacSha1 origin ip
      ua country st).1.headers = WorkerCors.corsHeaders ∨
      (WorkerCors.fetchEntry method path now env hmacSha1 origin ip ua
        country st).1.headers =
        ("Content-Type", "application/json") :: WorkerCors.corsHeaders := by
    unfold WorkerCors.fetchEntry
    split_ifs
    · left; rfl
    · right
      exact WorkerCors.handleGetFlag_headers now env hmacSha1 origin ip ua
        country st
    · right; rfl
  refine ⟨rfl, ?_, ?_, ?_⟩ <;>
    rcases hh with hh | hh <;> rw [hh] <;> simp [WorkerCors.corsHeaders]

theorem find?_filter_other (st : Store) (k k' : String)
    (hkk : (k' == k) = false) :
    (st.filter (fun e => e.1 != k')).find? (fun e => e.1 == k) =
      st.find? (fun e => e.1 == k) := by
  induction st with
  | nil => rfl
  | cons a rest ih =>
    cases ha : a.1 == k' with
    | true =>
      have ha1 : a.1 = k' := by simpa using ha
      have hak : (a.1 == k) = false := by rw [ha1]; exact hkk
      rw [List.filter_cons_of_neg (by simp [bne, ha]), ih,
        List.find?_cons_of_neg rest (by simp [hak])]
    | false =>
      cases hak : a.1 == k with
      | true =>
        rw [List.filter_cons_of_pos (by simp [bne, ha]),
          @List.find?_cons_of_pos _ (fun e => e.1 == k) a
            (List.filter (fun e => e.1 != k') rest) hak,
          @List.find?_cons_of_pos _ (fun e => e.1 == k) a rest hak]
      | false =>
        rw [List.filter_cons_of_pos (by simp [bne, ha]),
          List.find?_cons_of_neg _ (by simp [hak]), ih,
          List.find?_cons_of_neg _ (by simp [hak])]

theorem kvGet_kvPut_ne (tq t : Nat) (st : Store) (k' k v : String)
    (ttl : Nat) (hkk : (k' == k) = false) :
    kvGet tq (kvPut t st k' v ttl) k = kvGet tq st k := by
  unfold kvGet kvPut
  simp only [List.find?, hkk, find?_filter_other st k k' hkk]

theorem Worker.isRateLimited_preserves_other (t tq : Nat)
    (ip ua : Option String) (st : Store) (k : String)
    (hk : (Worker.rateLimitKey ip ua == k) = false) :
    kvGet tq (Worker.isRateLimited t ip ua st).2 k = kvGet tq st k := by
  unfold Worker.isRateLimited
  dsimp only
  split
  · rfl
  · exact kvGet_kvPut_ne tq t st _ k _ _ hk

theorem Worker.rlRun_cons_snd (ip ua : Option String) (t : Nat)
    (ts : List Nat) (st : Store) :
    (Worker.rlRun ip ua (t :: ts) st).2 =
      (Worker.rlRun ip ua ts (Worker.isRateLimited t ip ua st).2).2 := rfl

theorem Worker.rlRun_preserves_other (ip ua : Option String) (k : String)
    (hk : (Worker.rateLimitKey ip ua == k) = false) :
    ∀ (ts : List Nat) (st : Store) (tq : Nat),
      kvGet tq (Worker.rlRun ip ua ts st).2 k = kvGet tq st k := by
  intro ts
  induction ts with
  | nil => intro st tq; rfl
  | cons t ts ih =>
    intro st tq
    rw [Worker.rlRun_cons_snd]
    rw [ih ((Worker.isRateLimited t ip ua st).2) tq]
    exact Worker.isRateLimited_preserves_other t tq ip ua st k hk

theorem Worker.rateLimitKey_ne_of_ua_ne (ip ua₁ ua₂ : String)
    (h : ua₁ ≠ ua₂) :
    Worker.rateLimitKey (some ip) (some ua₁) ≠
      Worker.rateLimitKey (some ip) (some ua₂) := by
  intro hc
  apply h
  have hd := congrArg String.data hc
  simp only [Worker.rateLimitKey, Option.getD_some, String.data_append]
    at hd
  exact string_data_inj (List.append_cancel_left hd)

/-- C10: the rate-limit counter key is derived from both the client IP and
the User-Agent, with the literal string unknown substituted for an absent
header; two requests from the same IP with different User-Agent values use
distinct counter keys, and any run of requests under one (IP, User-Agent)
pair leaves the counter reads of the other pair — hence its whole
quota — untouched. -/
theorem Worker.C10_rate_limit_key_independence :
    Worker.rateLimitKey none none = "rl_unknown_unknown" ∧
    (∀ ip ua₁ ua₂ : String, ua₁ ≠ ua₂ →
      Worker.rateLimitKey (some ip) (some ua₁) ≠
        Worker.rateLimitKey (some ip) (some ua₂)) ∧
    (∀ ip ua₁ ua₂ : String, ua₁ ≠ ua₂ →
      ∀ (ts : List Nat) (st : Store) (tq : Nat),
        kvGet tq (Worker.rlRun (some ip) (some ua₂) ts st).2
          (Worker.rateLimitKey (some ip) (some ua₁)) =
        kvGet tq st (Worker.rateLimitKey (some ip) (some ua₁))) := by
  refine ⟨rfl, Worker.rateLimitKey_ne_of_ua_ne, ?_⟩
  intro ip ua₁ ua₂ hne ts st tq
  exact Worker.rlRun_preserves_other (some ip) (some ua₂) _
    (beq_eq_false_iff_ne.mpr
      (Worker.rateLimitKey_ne_of_ua_ne ip ua₂ ua₁ (Ne.symm hne))) ts st tq

/-- Witness for C10 at a concrete IP, two concrete User-Agent values, and
a one-request run under the second value. -/
theorem Worker.C10_rate_limit_key_independence_witness :
    ("curl/8" : String) ≠ "Mozilla/5.0" ∧
    Worker.rateLimitKey (some "1.2.3.4") (some "curl/8") ≠
      Worker.rateLimitKey (some "1.2.3.4") (some "Mozilla/5.0") ∧
    kvGet 0 (Worker.rlRun (some "1.2.3.4") (some "Mozilla/5.0") [0]
        [("rl_1.2.3.4_curl/8", "55", 900)]).2
      (Worker.rateLimitKey (some "1.2.3.4") (some "curl/8")) =
    kvGet 0 [("rl_1.2.3.4_curl/8", "55", 900)]
      (Worker.rateLimitKey (some "1.2.3.4") (some "curl/8")) :=
  ⟨by decide,
    Worker.C10_rate_limit_key_independence.2.1 "1.2.3.4" "curl/8"
      "Mozilla/5.0" (by decide),
    Worker.C10_rate_limit_key_independence.2.2 "1.2.3.4" "curl/8"
      "Mozilla/5.0" (by decide) [0] [("rl_1.2.3.4_curl/8", "55", 900)] 0⟩
